/-
Verification of the ModSimPy case-study notebooks (examples/plague.ipynb:
"The Freshman Plague" and "Spider-Man") against their specification.

The notebook code is embedded shallowly: Python functions become Lean
functions over ℝ, in-place mutation of a `System` object becomes explicit
state passing (the embedded function returns the post-call state of the
object that the Python function mutates), and the pandas `SweepSeries`
becomes an insertion-ordered association list with insert-or-overwrite
assignment.  Collaborator code of the repository that is not present under
src/ (chap11.py's `make_system`, `update_func`, `run_simulation`; modsim.py's
`SweepSeries`, `linrange`, `run_solve_ivp`, `Params.set`, `vector_mag`,
`vector_hat`, `pol2cart`) is modelled from the specification, as marked in
the individual doc comments.
-/
import Mathlib

noncomputable section

namespace Plague

/-- SIR state: susceptible, infected, recovered fractions, mirroring the
`State(s=…, i=…, r=…)` rows of the notebook's trajectories. -/
structure State where
  s : ℝ
  i : ℝ
  r : ℝ

/-- SIR system bundle, mirroring chap11's `System(init=…, t_end=…, beta=…,
gamma=…)`.  The start time `t_0` is always 0 in the notebook and is kept
implicit: trajectories are indexed by day `0 .. t_end`. -/
structure System where
  init : State
  t_end : ℕ
  beta : ℝ
  gamma : ℝ

/-- Modelled from the spec: `make_system` is imported from chap11.py, which
is repository code not under src/.  It builds the base SIR system with one
infected student out of 90 (init normalized to fractions s=89/90, i=1/90,
r=0), a 14-week span (t_end = 7·14 = 98 days), and the given rates. -/
def make_system (beta gamma : ℝ) : System :=
  { init := { s := 89 / 90, i := 1 / 90, r := 0 }
    t_end := 98
    beta := beta
    gamma := gamma }

/-- Modelled from the spec: `update_func` is imported from chap11.py (not
under src/).  One day of the discrete SIR update: `infected = beta*i*s`
leaves `s`, `recovered = gamma*i` leaves `i`; both flows are conserved. -/
def update_func (_t : ℕ) (st : State) (sys : System) : State :=
  let infected := sys.beta * st.i * st.s
  let recovered := sys.gamma * st.i
  { s := st.s - infected
    i := st.i + infected - recovered
    r := st.r + recovered }

/-- Modelled from the spec: `run_simulation` is imported from chap11.py (not
under src/).  It samples the state at each integer day from 0 to `t_end` by
iterating the update function; the trajectory is embedded as the function
from day to sampled state (`results.s[t]` = `(run_simulation sys f t).s`). -/
def run_simulation (sys : System) (f : ℕ → State → System → State) : ℕ → State
  | 0 => sys.init
  | t + 1 => f t (run_simulation sys f t) sys

/-- src cell 11: `calc_total_infected(results, system)` returns
`results.s[0] - results.s[system.t_end]`. -/
def calc_total_infected (results : ℕ → State) (sys : System) : ℝ :=
  (results 0).s - (results sys.t_end).s

/-- src cell 10: `tc = 3`, time between contacts in days. -/
def tc : ℝ := 3

/-- src cell 10: `tr = 4`, recovery time in days. -/
def tr : ℝ := 4

/-- src cell 10: `beta = 1 / tc`, contact rate per day. -/
def beta : ℝ := 1 / tc

/-- src cell 10: `gamma = 1 / tr`, recovery rate per day. -/
def gamma : ℝ := 1 / tr

/-- src cell 9: `add_immunization(system, fraction)` performs
`system.init.s -= fraction; system.init.r += fraction`, mutating the given
system in place.  The embedding returns the post-call state of the argument
object. -/
def add_immunization (sys : System) (fraction : ℝ) : System :=
  { sys with init := { sys.init with s := sys.init.s - fraction
                                     r := sys.init.r + fraction } }

/-- src cell 15: the generalized logistic function
`A + (K-A) / (C + Q*exp(-B*(x-M))) ** (1/nu)`.  The Python signature has
defaults `A=0, B=1, C=1, M=0, K=1, Q=1, nu=1`; arguments are passed
positionally here in the same order.  The real power is `Real.rpow`,
matching `**` on the positive denominators that occur in the notebook. -/
def logistic (x A B C M K Q nu : ℝ) : ℝ :=
  let exponent := -B * (x - M)
  let denom := C + Q * Real.exp exponent
  A + (K - A) / denom ^ (1 / nu)

/-- src cells 19/23: `compute_factor(spending) = logistic(spending, M=500,
K=0.2, B=0.01)`, every other parameter at its default. -/
def compute_factor (spending : ℝ) : ℝ :=
  logistic spending 0 0.01 1 500 0.2 1 1

/-- src cell 25: `add_hand_washing(system, spending)` performs
`system.beta *= (1 - compute_factor(spending))`, mutating the given system
in place.  The embedding returns the post-call state of the argument. -/
def add_hand_washing (sys : System) (spending : ℝ) : System :=
  { sys with beta := sys.beta * (1 - compute_factor spending) }

/-- Modelled from the spec: one `sweep[key] = value` assignment on a
`SweepSeries` (modsim.py, not under src/).  The SweepResult is a mapping
from lever value to outcome with insertion order = sweep order and unique
keys: assigning an existing key overwrites its value in place, assigning a
fresh key appends the entry. -/
def sweepRecord {α : Type} [DecidableEq α] (sw : List (α × ℝ)) (k : α) (v : ℝ) :
    List (α × ℝ) :=
  if k ∈ sw.map Prod.fst then sw.map (fun p => if p.1 = k then (p.1, v) else p)
  else sw ++ [(k, v)]

/-- The direct compose → integrate → extract pipeline for one hand-washing
spending level, exactly the body of one `sweep_hand_washing` iteration:
build a fresh system from the base rates, apply the hand-washing lever, run
the simulation, extract the total infected fraction. -/
def hw_outcome (spending : ℝ) : ℝ :=
  let system := add_hand_washing (make_system beta gamma) spending
  calc_total_infected (run_simulation system update_func) system

/-- src cell 27: `sweep_hand_washing(spending_array)` starts from an empty
`SweepSeries` and, for each spending value, composes a fresh system,
integrates it, and records the extracted outcome under that spending key. -/
def sweep_hand_washing (xs : List ℝ) : List (ℝ × ℝ) :=
  xs.foldl
    (fun sw spending =>
      let system := add_hand_washing (make_system beta gamma) spending
      sweepRecord sw spending
        (calc_total_infected (run_simulation system update_func) system))
    []

/-- src cell 34: `num_students = 90`. -/
def num_students : ℝ := 90

/-- src cell 34: `budget = 1200`. -/
def budget : ℝ := 1200

/-- src cell 34: `price_per_dose = 100`. -/
def price_per_dose : ℝ := 100

/-- src cell 34: `max_doses = int(budget / price_per_dose)`; `int` rounds
the float division toward zero, i.e. floor for this nonnegative value. -/
def max_doses : ℕ := (⌊budget / price_per_dose⌋).toNat

/-- src cell 36: `dose_array = linrange(max_doses)`.  Modelled from the
spec and the notebook's own description of modsim's `linrange` (not under
src/): the integers from 0 to `max_doses`, including both. -/
def dose_array : List ℕ := List.range (max_doses + 1)

/-- The direct compose → integrate → extract pipeline for one dose count,
exactly the body of one `sweep_doses` iteration: immunize `doses /
num_students` of the population, spend the given remainder on hand washing,
run the simulation, extract the total infected fraction. -/
def dose_outcome (doses : ℕ) (spending : ℝ) : ℝ :=
  let fraction := (doses : ℝ) / num_students
  let system :=
    add_hand_washing (add_immunization (make_system beta gamma) fraction) spending
  calc_total_infected (run_simulation system update_func) system

/-- src cell 38: `sweep_doses(dose_array)`: for each dose count, immunize
`doses/num_students`, spend `budget - doses*price_per_dose` on the
campaign, compose a fresh system, integrate, and record the outcome under
that dose count. -/
def sweep_doses (ds : List ℕ) : List (ℕ × ℝ) :=
  ds.foldl
    (fun (sw : List (ℕ × ℝ)) (doses : ℕ) =>
      let fraction := (doses : ℝ) / num_students
      let spending := budget - (doses : ℝ) * price_per_dose
      let system :=
        add_hand_washing (add_immunization (make_system beta gamma) fraction)
          spending
      sweepRecord sw doses
        (calc_total_infected (run_simulation system update_func) system))
    []

end Plague

namespace Spider

/-- 2-D vector, mirroring modsim's `Vector(x, y)`. -/
@[ext] structure Vec where
  x : ℝ
  y : ℝ

instance : Add Vec := ⟨fun a b => ⟨a.x + b.x, a.y + b.y⟩⟩

instance : Neg Vec := ⟨fun a => ⟨-a.x, -a.y⟩⟩

instance : SMul ℝ Vec := ⟨fun c a => ⟨c * a.x, c * a.y⟩⟩

@[simp] theorem Vec.add_x (a b : Vec) : (a + b).x = a.x + b.x := rfl

@[simp] theorem Vec.add_y (a b : Vec) : (a + b).y = a.y + b.y := rfl

@[simp] theorem Vec.neg_x (a : Vec) : (-a).x = -a.x := rfl

@[simp] theorem Vec.neg_y (a : Vec) : (-a).y = -a.y := rfl

@[simp] theorem Vec.smul_x (c : ℝ) (a : Vec) : (c • a).x = c * a.x := rfl

@[simp] theorem Vec.smul_y (c : ℝ) (a : Vec) : (c • a).y = c * a.y := rfl

/-- Modelled from the spec: modsim's `vector_mag` (not under src/), the
Euclidean magnitude of a 2-D vector. -/
def vector_mag (v : Vec) : ℝ := Real.sqrt (v.x ^ 2 + v.y ^ 2)

/-- Modelled from the spec: modsim's `vector_hat` (not under src/), the
unit vector in the direction of `v`, returning `v` itself (the zero
vector) when the magnitude is 0. -/
def vector_hat (v : Vec) : Vec :=
  if vector_mag v = 0 then v else (vector_mag v)⁻¹ • v

/-- State of the swinging body: position and velocity components, mirroring
`State(x=…, y=…, vx=…, vy=…)`. -/
structure State where
  x : ℝ
  y : ℝ
  vx : ℝ
  vy : ℝ

/-- Parameter bundle, mirroring the notebook's `Params(...)` fields. -/
structure Params where
  height : ℝ
  g : ℝ
  mass : ℝ
  area : ℝ
  rho : ℝ
  v_term : ℝ
  length : ℝ
  angle : ℝ
  k : ℝ
  t_0 : ℝ
  t_end : ℝ

/-- src cell (Spider-Man) 7: the concrete `params` object. -/
def params : Params :=
  { height := 381, g := 9.8, mass := 75, area := 1, rho := 1.2, v_term := 60
    length := 100, angle := 270 - 45, k := 40, t_0 := 0, t_end := 30 }

/-- Modelled from the spec: modsim's `Params.set` (not under src/) returns
a copy of the bundle with the given field overridden, leaving the original
value untouched; the notebook uses it only as `params.set(t_end=…)`. -/
def Params.set_t_end (p : Params) (t : ℝ) : Params := { p with t_end := t }

/-- src cell (Spider-Man) 9: `initial_condition(params)`.  `np.deg2rad`
is `· * π / 180` and modsim's `pol2cart(theta, rho)` is
`(rho·cos theta, rho·sin theta)` (both collaborators, not under src/). -/
def initial_condition (p : Params) : State :=
  let H : Vec := ⟨0, p.height⟩
  let theta : ℝ := p.angle * (Real.pi / 180)
  let L : Vec := ⟨p.length * Real.cos theta, p.length * Real.sin theta⟩
  let P : Vec := H + L
  { x := P.x, y := P.y, vx := 0, vy := 0 }

/-- System bundle: all `Params` fields plus the derived initial state and
drag coefficient, mirroring `System(params, init=init, C_d=C_d)`. -/
structure System where
  height : ℝ
  g : ℝ
  mass : ℝ
  area : ℝ
  rho : ℝ
  v_term : ℝ
  length : ℝ
  angle : ℝ
  k : ℝ
  t_0 : ℝ
  t_end : ℝ
  init : State
  C_d : ℝ

/-- src cell (Spider-Man) 12: `make_system(params)` copies the parameter
fields and derives `init` and the drag coefficient
`C_d = 2·mass·g / (rho·area·v_term²)` back-solved from terminal velocity. -/
def make_system (p : Params) : System :=
  { height := p.height, g := p.g, mass := p.mass, area := p.area, rho := p.rho
    v_term := p.v_term, length := p.length, angle := p.angle, k := p.k
    t_0 := p.t_0, t_end := p.t_end
    init := initial_condition p
    C_d := 2 * p.mass * p.g / (p.rho * p.area * p.v_term ^ 2) }

/-- src cell (Spider-Man) 21: `spring_force(L⃗, system)`: zero magnitude
when the web is not stretched beyond its rest length, otherwise linear in
the extension, directed opposite to the unit vector of `L⃗`. -/
def spring_force (L : Vec) (sys : System) : Vec :=
  let extension := vector_mag L - sys.length
  let mag := if extension < 0 then 0 else sys.k * extension
  let direction := -(vector_hat L)
  mag • direction

/-- src cell (Spider-Man) 46: `event_func(t, state, system)` returns the
height `y`; the integrator stops at its zero crossing (ground contact). -/
def event_func (_t : ℝ) (state : State) (_system : System) : ℝ := state.y

/-- A sampled trajectory: (time, state) pairs, mirroring the time-indexed
rows of the integrator's result frame. -/
def Traj : Type := List (ℝ × State)

/-- src cell (Spider-Man) 52: `run_two_phase(t_release, params)`.  The
integrator `run_solve_ivp` is the external collaborator (modsim.py, not
under src/); it is passed in abstractly as `solve` (no events) and
`solveEv` (with an event function).  Phase 1 runs the spring system up to
`t_release`; phase 2 restarts from the final sampled time and state of
phase 1 with the spring constant set to 0 and the ground-contact event, and
the result is the concatenation of the two sampled trajectories.  The
Python code indexes `results1.iloc[-1]`, which raises on an empty frame;
the embedding returns `none` in that case. -/
def run_two_phase (solve : System → List (ℝ × State))
    (solveEv : System → (ℝ → State → System → ℝ) → List (ℝ × State))
    (t_release : ℝ) (p : Params) : Option (List (ℝ × State)) :=
  let params1 := p.set_t_end t_release
  let system1 := make_system params1
  let results1 := solve system1
  match results1.getLast? with
  | none => none
  | some last =>
    let t_0 := last.1
    let t_end := t_0 + 10
    let init := last.2
    let system2 := { system1 with init := init, t_0 := t_0, t_end := t_end, k := 0 }
    let results2 := solveEv system2 event_func
    some (results1 ++ results2)

end Spider

section SweepLemmas

/-- Recording a fresh key appends the entry. -/
theorem sweepRecord_fresh {α : Type} [DecidableEq α] (sw : List (α × ℝ)) (k : α)
    (v : ℝ) (h : k ∉ sw.map Prod.fst) :
    Plague.sweepRecord sw k v = sw ++ [(k, v)] := by
  unfold Plague.sweepRecord
  rw [if_neg h]

/-- A sweep loop over pairwise-distinct lever values, none of which is
already recorded, appends exactly one entry per value, keyed by the value,
in input order, carrying the per-value outcome. -/
theorem sweepRecord_foldl {α : Type} [DecidableEq α] (f : α → ℝ) (xs : List α) :
    ∀ acc : List (α × ℝ), xs.Nodup → (∀ k ∈ xs, k ∉ acc.map Prod.fst) →
      xs.foldl (fun sw v => Plague.sweepRecord sw v (f v)) acc
        = acc ++ xs.map (fun v => (v, f v)) := by
  induction xs with
  | nil => intro acc _ _; simp
  | cons x xs ih =>
    intro acc hnd hdisj
    have hx : x ∉ acc.map Prod.fst := hdisj x (List.mem_cons_self x xs)
    rw [List.foldl_cons, sweepRecord_fresh acc x (f x) hx,
      ih (acc ++ [(x, f x)]) hnd.of_cons ?_]
    · simp
    · intro k hk
      have hkx : k ≠ x := by
        intro hkx
        exact (List.nodup_cons.mp hnd).1 (hkx ▸ hk)
      have hka : k ∉ acc.map Prod.fst := hdisj k (List.mem_cons_of_mem x hk)
      simp [hka, hkx]

end SweepLemmas

/-- Claim C1: for every sequence of pairwise-distinct candidate spending
values, the grid sweep `sweep_hand_washing` records exactly one entry per
candidate, keyed by that candidate, in input order, each outcome equal to
the independent compose → integrate → extract call `hw_outcome` for that
value alone; the sweep of the empty sequence is empty, the sweep of a
one-element sequence is the one direct call, and running the iterations in
any other order yields the same recorded contents. -/
theorem C1_sweep_is_independent_map (xs : List ℝ) (hnd : xs.Nodup) :
    Plague.sweep_hand_washing xs = xs.map (fun v => (v, Plague.hw_outcome v))
    ∧ Plague.sweep_hand_washing [] = []
    ∧ (∀ v : ℝ, Plague.sweep_hand_washing [v] = [(v, Plague.hw_outcome v)])
    ∧ ∀ ys : List ℝ, xs.Perm ys →
        (Plague.sweep_hand_washing ys).Perm (Plague.sweep_hand_washing xs) := by
  have key : ∀ zs : List ℝ, zs.Nodup →
      Plague.sweep_hand_washing zs = zs.map (fun v => (v, Plague.hw_outcome v)) := by
    intro zs hzs
    have h := sweepRecord_foldl Plague.hw_outcome zs [] hzs (by simp)
    simpa using h
  refine ⟨key xs hnd, key [] (by simp), fun v => by simpa using key [v] (by simp),
    fun ys hp => ?_⟩
  rw [key xs hnd, key ys (hnd.perm hp)]
  exact (hp.map fun v => (v, Plague.hw_outcome v)).symm

/-- Witness for C1 at the concrete two-element input [0, 800]. -/
theorem C1_sweep_is_independent_map_witness :
    ([(0 : ℝ), 800].Nodup)
    ∧ Plague.sweep_hand_washing [0, 800]
        = [0, 800].map (fun v => (v, Plague.hw_outcome v)) :=
  ⟨by norm_num, (C1_sweep_is_independent_map [0, 800] (by norm_num)).1⟩

/-- With budget 1200 and price 100, `dose_array` is the integers 0..12. -/
theorem dose_array_eq : Plague.dose_array = List.range 13 := by
  have h12 : Plague.budget / Plague.price_per_dose = ((12 : ℤ) : ℝ) := by
    norm_num [Plague.budget, Plague.price_per_dose]
  simp [Plague.dose_array, Plague.max_doses, h12, Int.floor_intCast]

/-- Claim C2: with total budget 1200 and price 100 per dose, the
budget-constrained two-lever sweep `sweep_doses` over `dose_array` produces
exactly 13 entries, one per integer dose count 0..12 in order, each
evaluated with hand-washing spending `1200 - doses·100`, which is
nonnegative for every entry. -/
theorem C2_budget_constrained_sweep :
    Plague.sweep_doses Plague.dose_array
      = Plague.dose_array.map
          (fun d => (d, Plague.dose_outcome d (1200 - (d : ℝ) * 100)))
    ∧ (Plague.sweep_doses Plague.dose_array).length = 13
    ∧ (Plague.sweep_doses Plague.dose_array).map Prod.fst
        = [0, 1, 2, 3, 4, 5, 6, 7, 8, 9, 10, 11, 12]
    ∧ Plague.dose_array.Forall (fun d : ℕ => (0 : ℝ) ≤ 1200 - (d : ℝ) * 100) := by
  have key : Plague.sweep_doses Plague.dose_array
      = Plague.dose_array.map
          (fun d => (d, Plague.dose_outcome d (1200 - (d : ℝ) * 100))) := by
    have h := sweepRecord_foldl
      (fun d : ℕ => Plague.dose_outcome d (1200 - (d : ℝ) * 100))
      Plague.dose_array [] (by rw [dose_array_eq]; exact List.nodup_range 13)
      (by simp)
    simpa using h
  refine ⟨key, ?_, ?_, ?_⟩
  · rw [key, List.length_map, dose_array_eq, List.length_range]
  · rw [key, List.map_map]
    have : (Prod.fst ∘ fun d : ℕ => (d, Plague.dose_outcome d (1200 - (d : ℝ) * 100)))
        = id := rfl
    rw [this, List.map_id, dose_array_eq]
    rfl
  · rw [dose_array_eq]
    refine List.forall_iff_forall_mem.mpr ?_
    intro d hd
    have hd13 : d < 13 := by simpa using hd
    have hcast : (d : ℝ) ≤ 12 := by exact_mod_cast Nat.lt_succ_iff.mp hd13
    linarith

/-- One SIR step removes exactly the day's new infections from `s`. -/
theorem run_simulation_s_step (sys : Plague.System) (t : ℕ) :
    (Plague.run_simulation sys Plague.update_func (t + 1)).s
      = (Plague.run_simulation sys Plague.update_func t).s
        - sys.beta * (Plague.run_simulation sys Plague.update_func t).i
            * (Plague.run_simulation sys Plague.update_func t).s := rfl

/-- The susceptible drop over the first `n` days telescopes into the sum of
the per-day new infections. -/
theorem run_simulation_s_drop (sys : Plague.System) (n : ℕ) :
    (Plague.run_simulation sys Plague.update_func 0).s
        - (Plague.run_simulation sys Plague.update_func n).s
      = ∑ t ∈ Finset.range n,
          sys.beta * (Plague.run_simulation sys Plague.update_func t).i
            * (Plague.run_simulation sys Plague.update_func t).s := by
  induction n with
  | zero => simp
  | succ n ih =>
    rw [Finset.sum_range_succ, ← ih, run_simulation_s_step]
    ring

/-- Claim C3: for the trajectory of a full-span epidemic run,
`calc_total_infected` returns the susceptible fraction at time 0 minus the
susceptible fraction at the system's declared end time, and that difference
equals the cumulative fraction infected over the run (the sum of the daily
new-infection flows `beta·i·s`). -/
theorem C3_calc_total_infected_cumulative (sys : Plague.System) :
    Plague.calc_total_infected (Plague.run_simulation sys Plague.update_func) sys
        = (Plague.run_simulation sys Plague.update_func 0).s
          - (Plague.run_simulation sys Plague.update_func sys.t_end).s
    ∧ Plague.calc_total_infected (Plague.run_simulation sys Plague.update_func) sys
        = ∑ t ∈ Finset.range sys.t_end,
            sys.beta * (Plague.run_simulation sys Plague.update_func t).i
              * (Plague.run_simulation sys Plague.update_func t).s :=
  ⟨rfl, run_simulation_s_drop sys sys.t_end⟩

/-- Claim C4: applying `add_immunization` with fraction f in [0, 1] to a
freshly made system yields an initial susceptible fraction exactly equal to
the unimmunized initial susceptible fraction minus f. -/
theorem C4_add_immunization_shifts_susceptible (f : ℝ) (h0 : 0 ≤ f) (h1 : f ≤ 1) :
    (Plague.add_immunization (Plague.make_system Plague.beta Plague.gamma) f).init.s
      = (Plague.make_system Plague.beta Plague.gamma).init.s - f := rfl

/-- Witness for C4 at the concrete fraction 1/2. -/
theorem C4_add_immunization_shifts_susceptible_witness :
    (0 : ℝ) ≤ 1 / 2 ∧ (1 : ℝ) / 2 ≤ 1
    ∧ (Plague.add_immunization (Plague.make_system Plague.beta Plague.gamma)
          (1 / 2)).init.s
        = (Plague.make_system Plague.beta Plague.gamma).init.s - 1 / 2 :=
  ⟨by norm_num, by norm_num,
    C4_add_immunization_shifts_susceptible (1 / 2) (by norm_num) (by norm_num)⟩

/-- Closed form of the campaign-response curve: with A=0, B=0.01, C=1,
M=500, K=0.2, Q=1, nu=1 the generalized logistic reduces to
`0.2 / (1 + exp (-0.01·(x - 500)))`. -/
theorem compute_factor_eq (x : ℝ) :
    Plague.compute_factor x = 0.2 / (1 + Real.exp (-0.01 * (x - 500))) := by
  show Plague.logistic x 0 0.01 1 500 0.2 1 1
      = 0.2 / (1 + Real.exp (-0.01 * (x - 500)))
  unfold Plague.logistic
  norm_num

/-- Claim C5: for all spending x in [0, ∞), the campaign-response curve
`logistic(x, A=0, K=0.2, M=500, B=0.01)` used by `compute_factor` is
monotonically non-decreasing in x. -/
theorem C5_compute_factor_monotone (x y : ℝ) (hx : 0 ≤ x) (hxy : x ≤ y) :
    Plague.logistic x 0 0.01 1 500 0.2 1 1 ≤ Plague.logistic y 0 0.01 1 500 0.2 1 1
    ∧ Plague.compute_factor x ≤ Plague.compute_factor y := by
  have key : Plague.compute_factor x ≤ Plague.compute_factor y := by
    rw [compute_factor_eq, compute_factor_eq]
    have hexp : Real.exp (-0.01 * (y - 500)) ≤ Real.exp (-0.01 * (x - 500)) := by
      apply Real.exp_le_exp.mpr
      nlinarith
    exact div_le_div_of_nonneg_left (by norm_num) (by positivity)
      (by linarith [hexp])
  exact ⟨key, key⟩

/-- Witness for C5 at the concrete spendings 0 and 800. -/
theorem C5_compute_factor_monotone_witness :
    (0 : ℝ) ≤ 0 ∧ (0 : ℝ) ≤ 800
    ∧ Plague.compute_factor 0 ≤ Plague.compute_factor 800 :=
  ⟨le_refl 0, by norm_num, (C5_compute_factor_monotone 0 800 le_rfl (by norm_num)).2⟩

/-- The curve at zero spending is exactly `0.2 / (1 + e^5)`. -/
theorem compute_factor_zero : Plague.compute_factor 0 = 0.2 / (1 + Real.exp 5) := by
  rw [compute_factor_eq]
  norm_num

/-- Numeric bounds on `e^5` from the decimal bounds on `e`. -/
theorem exp_five_bounds : (148.41 : ℝ) < Real.exp 5 ∧ Real.exp 5 < (148.42 : ℝ) := by
  have h5 : Real.exp 5 = Real.exp 1 ^ 5 := by
    rw [← Real.exp_nat_mul]
    norm_num
  constructor
  · have hlow : (2.7182818283 : ℝ) ^ 5 ≤ Real.exp 1 ^ 5 :=
      pow_le_pow_left₀ (by norm_num) Real.exp_one_gt_d9.le 5
    rw [h5]
    nlinarith [hlow]
  · have hhigh : Real.exp 1 ^ 5 ≤ (2.7182818286 : ℝ) ^ 5 :=
      pow_le_pow_left₀ (Real.exp_pos 1).le Real.exp_one_lt_d9.le 5
    rw [h5]
    nlinarith [hhigh]

/-- Counterexample to claim C6: `logistic(0, A=0, K=0.2, M=500, B=0.01)` is
not 0 within floating tolerance — it exceeds 1/100000 (its exact value is
`0.2/(1+e^5) ≈ 0.00134`), so it is nonzero far beyond double-precision
rounding. -/
theorem C6_counterexample :
    (1 : ℝ) / 100000 < Plague.compute_factor 0 ∧ Plague.compute_factor 0 ≠ 0 := by
  have hub := exp_five_bounds.2
  have hpos : (0 : ℝ) < 1 + Real.exp 5 := by positivity
  have hlow : (1 : ℝ) / 100000 < 0.2 / (1 + Real.exp 5) := by
    rw [div_lt_div_iff₀ (by norm_num) hpos]
    nlinarith
  rw [compute_factor_zero]
  exact ⟨hlow, by positivity⟩

/-- Claim C6 as amended: `logistic(0, A=0, K=0.2, M=500, B=0.01)` equals
`0.2/(1+e^5)` exactly — a positive value below 0.0014, close to 0 on the
scale of the curve but not 0 within floating tolerance — and
`logistic(x, A=0, K=0.2, M=500, B=0.01)` tends to 0.2 as x tends to
infinity. -/
theorem C6_logistic_limits_amended :
    Plague.compute_factor 0 = 0.2 / (1 + Real.exp 5)
    ∧ 0 < Plague.compute_factor 0
    ∧ Plague.compute_factor 0 < 0.0014
    ∧ Filter.Tendsto Plague.compute_factor Filter.atTop (nhds 0.2) := by
  have hlb := exp_five_bounds.1
  refine ⟨compute_factor_zero, ?_, ?_, ?_⟩
  · rw [compute_factor_zero]
    positivity
  · rw [compute_factor_zero, div_lt_iff₀ (by positivity)]
    nlinarith
  · have harg : Filter.Tendsto (fun x : ℝ => -0.01 * (x - 500))
        Filter.atTop Filter.atBot := by
      apply Filter.Tendsto.const_mul_atTop_of_neg (by norm_num)
      exact Filter.tendsto_atTop_add_const_right Filter.atTop (-500) Filter.tendsto_id
    have hexp : Filter.Tendsto (fun x : ℝ => Real.exp (-0.01 * (x - 500)))
        Filter.atTop (nhds 0) := Real.tendsto_exp_atBot.comp harg
    have hdiv : Filter.Tendsto (fun x : ℝ => 0.2 / (1 + Real.exp (-0.01 * (x - 500))))
        Filter.atTop (nhds (0.2 / (1 + 0))) :=
      Filter.Tendsto.div tendsto_const_nhds (Filter.Tendsto.add tendsto_const_nhds hexp)
        (by norm_num)
    have hfun : Plague.compute_factor
        = fun x : ℝ => 0.2 / (1 + Real.exp (-0.01 * (x - 500))) :=
      funext compute_factor_eq
    rw [hfun]
    convert hdiv using 2
    norm_num

/-- Claim C7: for every release time, `run_two_phase` is two independent
sub-runs of the abstract integrator: phase 1 integrates the spring system
up to `t_release` (the base parameters with only `t_end` overridden), phase
2 starts from exactly the final sampled time and final sampled state of
phase 1 with the spring constant set to 0 and the ground-contact event
stop, and the returned trajectory is the concatenation of the two sub-runs;
the spring-detach discontinuity is never integrated through inside a single
integrator call. -/
theorem C7_run_two_phase_splices (solve : Spider.System → List (ℝ × Spider.State))
    (solveEv : Spider.System → (ℝ → Spider.State → Spider.System → ℝ) →
      List (ℝ × Spider.State))
    (t_release : ℝ) (p : Spider.Params)
    (h : solve (Spider.make_system (p.set_t_end t_release)) ≠ []) :
    ∃ last : ℝ × Spider.State,
      (solve (Spider.make_system (p.set_t_end t_release))).getLast? = some last
      ∧ Spider.run_two_phase solve solveEv t_release p
          = some (solve (Spider.make_system (p.set_t_end t_release))
              ++ solveEv
                { Spider.make_system (p.set_t_end t_release) with
                  init := last.2, t_0 := last.1, t_end := last.1 + 10, k := 0 }
                Spider.event_func) := by
  refine ⟨(solve (Spider.make_system (p.set_t_end t_release))).getLast h,
    List.getLast?_eq_getLast _ h, ?_⟩
  unfold Spider.run_two_phase
  simp only [List.getLast?_eq_getLast _ h]

/-- Witness for C7: a concrete one-sample integrator stub, release time 9,
and the notebook's `params`. -/
theorem C7_run_two_phase_splices_witness :
    ((fun _ : Spider.System => [((9 : ℝ), (⟨0, 100, 1, 2⟩ : Spider.State))])
        (Spider.make_system (Spider.params.set_t_end 9)) ≠ [])
    ∧ ∃ last : ℝ × Spider.State,
        ((fun _ : Spider.System => [((9 : ℝ), (⟨0, 100, 1, 2⟩ : Spider.State))])
            (Spider.make_system (Spider.params.set_t_end 9))).getLast? = some last
        ∧ Spider.run_two_phase
              (fun _ : Spider.System => [((9 : ℝ), (⟨0, 100, 1, 2⟩ : Spider.State))])
              (fun _ _ => [((10 : ℝ), (⟨5, 0, 0, 0⟩ : Spider.State))]) 9 Spider.params
            = some ((fun _ : Spider.System =>
                  [((9 : ℝ), (⟨0, 100, 1, 2⟩ : Spider.State))])
                  (Spider.make_system (Spider.params.set_t_end 9))
                ++ (fun _ _ => [((10 : ℝ), (⟨5, 0, 0, 0⟩ : Spider.State))])
                  { Spider.make_system (Spider.params.set_t_end 9) with
                    init := last.2, t_0 := last.1, t_end := last.1 + 10, k := 0 }
                  Spider.event_func) :=
  ⟨by simp,
    C7_run_two_phase_splices
      (fun _ : Spider.System => [((9 : ℝ), (⟨0, 100, 1, 2⟩ : Spider.State))])
      (fun _ _ => [((10 : ℝ), (⟨5, 0, 0, 0⟩ : Spider.State))]) 9 Spider.params
      (by simp)⟩

/-- Magnitude scales with the absolute value of a scalar factor. -/
theorem vector_mag_smul (c : ℝ) (v : Spider.Vec) :
    Spider.vector_mag (c • v) = |c| * Spider.vector_mag v := by
  unfold Spider.vector_mag
  rw [Spider.Vec.smul_x, Spider.Vec.smul_y, mul_pow, mul_pow, ← mul_add,
    Real.sqrt_mul (sq_nonneg c), Real.sqrt_sq_eq_abs]

/-- Magnitude is invariant under negation. -/
theorem vector_mag_neg (v : Spider.Vec) :
    Spider.vector_mag (-v) = Spider.vector_mag v := by
  unfold Spider.vector_mag
  rw [Spider.Vec.neg_x, Spider.Vec.neg_y, neg_pow, neg_pow]
  norm_num

/-- Magnitude is nonnegative. -/
theorem vector_mag_nonneg (v : Spider.Vec) : 0 ≤ Spider.vector_mag v :=
  Real.sqrt_nonneg _

/-- The unit vector of a vector of nonzero magnitude has magnitude 1. -/
theorem vector_mag_hat (v : Spider.Vec) (h : Spider.vector_mag v ≠ 0) :
    Spider.vector_mag (Spider.vector_hat v) = 1 := by
  unfold Spider.vector_hat
  rw [if_neg h, vector_mag_smul, abs_inv, abs_of_nonneg (vector_mag_nonneg v),
    inv_mul_cancel₀ h]

/-- Claim C10: for a system with nonnegative spring constant and rest
length, `spring_force` returns the zero force vector whenever the web
vector's magnitude is at most the rest length, and otherwise returns a
force equal to `k·(|L| - length)` times the vector opposite to the unit
vector of L, whose magnitude is exactly `k·(|L| - length)`. -/
theorem C10_spring_force_cases (sys : Spider.System) (L : Spider.Vec)
    (hk : 0 ≤ sys.k) (hl : 0 ≤ sys.length) :
    (Spider.vector_mag L ≤ sys.length →
      Spider.spring_force L sys = (⟨0, 0⟩ : Spider.Vec))
    ∧ (sys.length < Spider.vector_mag L →
        Spider.spring_force L sys
            = (sys.k * (Spider.vector_mag L - sys.length)) • (-(Spider.vector_hat L))
        ∧ Spider.vector_mag (Spider.spring_force L sys)
            = sys.k * (Spider.vector_mag L - sys.length)) := by
  constructor
  · intro h
    by_cases hlt : Spider.vector_mag L - sys.length < 0
    · simp only [Spider.spring_force]
      rw [if_pos hlt]
      ext <;> simp
    · have h0 : Spider.vector_mag L - sys.length = 0 :=
        le_antisymm (sub_nonpos.mpr h) (not_lt.mp hlt)
      simp only [Spider.spring_force]
      rw [if_neg hlt, h0, mul_zero]
      ext <;> simp
  · intro h
    have hext : 0 < Spider.vector_mag L - sys.length := sub_pos.mpr h
    have heq : Spider.spring_force L sys
        = (sys.k * (Spider.vector_mag L - sys.length)) • (-(Spider.vector_hat L)) := by
      simp only [Spider.spring_force]
      rw [if_neg (not_lt.mpr hext.le)]
    refine ⟨heq, ?_⟩
    have hmagL : Spider.vector_mag L ≠ 0 := (hl.trans_lt h).ne'
    rw [heq, vector_mag_smul, vector_mag_neg, vector_mag_hat L hmagL, mul_one,
      abs_of_nonneg (mul_nonneg hk hext.le)]

/-- Witness for C10: the notebook's system (k = 40 ≥ 0, length = 100 ≥ 0)
and the slack web vector (0, 0), whose magnitude 0 is within the rest
length, so the spring force vanishes. -/
theorem C10_spring_force_cases_witness :
    0 ≤ (Spider.make_system Spider.params).k
    ∧ 0 ≤ (Spider.make_system Spider.params).length
    ∧ Spider.vector_mag ⟨0, 0⟩ ≤ (Spider.make_system Spider.params).length
    ∧ Spider.spring_force ⟨0, 0⟩ (Spider.make_system Spider.params)
        = (⟨0, 0⟩ : Spider.Vec) := by
  have hk : 0 ≤ (Spider.make_system Spider.params).k := by
    norm_num [Spider.make_system, Spider.params]
  have hl : 0 ≤ (Spider.make_system Spider.params).length := by
    norm_num [Spider.make_system, Spider.params]
  have hmag : Spider.vector_mag ⟨0, 0⟩ ≤ (Spider.make_system Spider.params).length := by
    have : Spider.vector_mag ⟨0, 0⟩ = 0 := by
      norm_num [Spider.vector_mag]
    rw [this]
    exact hl
  exact ⟨hk, hl, hmag,
    (C10_spring_force_cases (Spider.make_system Spider.params) ⟨0, 0⟩ hk hl).1 hmag⟩

/-- Counterexample to claim C8: the plague scenario composer mutates the
bundle it is given.  `add_immunization(system, 1/90)` changes the
susceptible fraction of the very system object passed in (the embedding
returns the post-call state of the argument), so the bundle is not left
unchanged by every operation: at the concrete base system, the post-call
susceptible fraction 88/90 differs from the pre-call 89/90. -/
theorem C8_counterexample :
    (Plague.add_immunization
        (⟨⟨89 / 90, 1 / 90, 0⟩, 98, 1 / 3, 1 / 4⟩ : Plague.System) (1 / 90)).init.s
      ≠ ((⟨⟨89 / 90, 1 / 90, 0⟩, 98, 1 / 3, 1 / 4⟩ : Plague.System)).init.s := by
  simp only [Plague.add_immunization]
  norm_num

/-- Claim C8 as amended: the Spider-Man `Params` bundle is derived by
copy-override only — `set_t_end` produces a bundle with the new end time
and every other field equal to the original's, which stays available
unchanged.  The plague composers, by contrast, update the `System` bundle
passed to them in place: `add_immunization` shifts `fraction` from the
argument's susceptible to its recovered fraction (leaving `beta`
untouched); safe reuse across sweep iterations holds because every
iteration composes a fresh system from the base rates. -/
theorem C8_copy_override_amended :
    (∀ (p : Spider.Params) (t : ℝ),
      (p.set_t_end t).t_end = t
      ∧ (p.set_t_end t).height = p.height
      ∧ (p.set_t_end t).g = p.g
      ∧ (p.set_t_end t).mass = p.mass
      ∧ (p.set_t_end t).area = p.area
      ∧ (p.set_t_end t).rho = p.rho
      ∧ (p.set_t_end t).v_term = p.v_term
      ∧ (p.set_t_end t).length = p.length
      ∧ (p.set_t_end t).angle = p.angle
      ∧ (p.set_t_end t).k = p.k
      ∧ (p.set_t_end t).t_0 = p.t_0)
    ∧ (∀ (sys : Plague.System) (f : ℝ),
      (Plague.add_immunization sys f).init.s = sys.init.s - f
      ∧ (Plague.add_immunization sys f).init.r = sys.init.r + f
      ∧ (Plague.add_immunization sys f).beta = sys.beta) :=
  ⟨fun _ _ => ⟨rfl, rfl, rfl, rfl, rfl, rfl, rfl, rfl, rfl, rfl, rfl⟩,
    fun _ _ => ⟨rfl, rfl, rfl⟩⟩

/-- Counterexample to claim C9: the scenario composer never fails — there
is no InvalidLever (or any other) error path in the code.  The
out-of-domain lever values are silently accepted and processed by the same
formulas as valid ones: negative campaign spending −100 yields an
ordinarily composed system, and an immunization fraction of 2 (more doses
than the population allows) is likewise accepted, driving the susceptible
fraction negative. -/
theorem C9_counterexample :
    (Plague.add_hand_washing
        (⟨⟨89 / 90, 1 / 90, 0⟩, 98, 1 / 3, 1 / 4⟩ : Plague.System) (-100)).beta
      = (1 / 3) * (1 - Plague.compute_factor (-100))
    ∧ (Plague.add_immunization
        (⟨⟨89 / 90, 1 / 90, 0⟩, 98, 1 / 3, 1 / 4⟩ : Plague.System) 2).init.s
      = 89 / 90 - 2 :=
  ⟨rfl, rfl⟩

/-- Claim C9 as amended: the scenario composers perform no domain
validation at all.  For every lever value — inside or outside its declared
domain — `add_hand_washing` and `add_immunization` are total and return the
ordinarily composed system by the same formulas, so no InvalidLever
failure is ever raised and out-of-domain values are silently accepted. -/
theorem C9_no_validation_amended :
    (∀ (sys : Plague.System) (spending : ℝ),
      Plague.add_hand_washing sys spending
        = { sys with beta := sys.beta * (1 - Plague.compute_factor spending) })
    ∧ (∀ (sys : Plague.System) (f : ℝ),
      Plague.add_immunization sys f
        = { sys with init := { sys.init with s := sys.init.s - f
                                             r := sys.init.r + f } }) :=
  ⟨fun _ _ => rfl, fun _ _ => rfl⟩
